import Mathlib

/-!
Shallow embedding of `src/ipykernel/inprocess/manager.py`, class
`InProcessKernelManager` (the kernel lifecycle adapter for in-process
kernels).

Modelling choices:
* The manager state `Mgr` holds the `kernel` slot (the traitlets
  `Instance(..., allow_none=True)` field, so an `Option`), a counter used
  to give each constructed `InProcessKernel` handle a distinct identity,
  and a `trace` of observable side effects. The trace records, in program
  order, the calls the manager makes on its kernel handle and the
  assignments to the `kernel` slot, so that ordering claims are provable.
* Methods are functions from `Mgr` to a result paired with the successor
  state. Methods that can raise return `Except PyError Unit` as the
  result; `NotImplementedError` is one constructor of `PyError`, and any
  other Python exception is abstracted by a numeric code.
* `InProcessKernel` (module `ipykernel.inprocess.ipkernel`) is not under
  `src/`; its constructor and its async `start` are opaque collaborators.
  A `StartEnv` says whether the constructor raises and whether the
  awaited `start` call raises, covering every behaviour of that handle
  that `manager.py` can observe during `start_kernel`.
* `kwargs` dictionaries are association lists with first-match lookup and
  replace-or-append assignment, mirroring Python dict semantics for the
  single key (`"kernel"`) that `client` touches.
-/

namespace InProcess

/-- Python exceptions visible at this layer: `NotImplementedError` with its
message, and an abstract code for every other exception the kernel handle
may raise during construction or startup. -/
inductive PyError where
  | notImplementedError (msg : String)
  | exn (code : Nat)
deriving DecidableEq, Repr

/-- Observable side effects of the manager, in program order: constructing a
handle, assigning the `kernel` slot, awaiting `kernel.start`, calling
`kernel.iopub_thread.stop`, and calling `kernel.stop`. -/
inductive Event where
  | construct (kid : Nat)
  | setKernel (k : Option Nat)
  | kernelStart (kid : Nat)
  | iopubStop (kid : Nat)
  | kernelStop (kid : Nat)
deriving DecidableEq, Repr

/-- The in-process kernel handle, identified by the order in which it was
constructed; its internals are opaque to `manager.py`. -/
structure Kernel where
  kid : Nat
deriving DecidableEq, Repr

/-- State of an `InProcessKernelManager`: the `kernel` slot (None when no
handle is held), the identity for the next constructed handle, and the
trace of side effects performed so far. -/
structure Mgr where
  kernel : Option Kernel
  nextId : Nat
  trace : List Event
deriving DecidableEq, Repr

/-- A freshly constructed manager: the traitlets `Instance` field defaults
to `None`, and nothing has happened yet. -/
def init : Mgr := { kernel := none, nextId := 0, trace := [] }

/-- Modelled from the spec: behaviour of the opaque `InProcessKernel`
collaborator (module `ipykernel.inprocess.ipkernel`, absent from `src/`)
during `start_kernel`. Either the constructor raises, or the awaited
`start` call raises, or both succeed; these are the only outcomes
`manager.py` can observe. -/
structure StartEnv where
  constructErr : Option PyError
  startErr : Option PyError
deriving DecidableEq, Repr

/-- `is_alive`: `return self.kernel is not None`. A read-only method, so it
returns the state unchanged. -/
def is_alive (s : Mgr) : Bool × Mgr := (s.kernel.isSome, s)

/-- `has_kernel` property: `return self.kernel is not None`. -/
def has_kernel (s : Mgr) : Bool × Mgr := (s.kernel.isSome, s)

/-- `_kill_kernel`: `if self.kernel: self.kernel.stop(); self.kernel = None`. -/
def _kill_kernel (s : Mgr) : Mgr :=
  match s.kernel with
  | none => s
  | some k =>
      { s with kernel := none
               trace := s.trace ++ [Event.kernelStop k.kid, Event.setKernel none] }

/-- `shutdown_kernel`: `if self.kernel: self.kernel.iopub_thread.stop();
self._kill_kernel()`. -/
def shutdown_kernel (s : Mgr) : Mgr :=
  match s.kernel with
  | none => s
  | some k => _kill_kernel { s with trace := s.trace ++ [Event.iopubStop k.kid] }

/-- `start_kernel`: `self.kernel = InProcessKernel(parent=self,
session=self.session); await self.kernel.start(task_status=task_status)`.
The right-hand side of the assignment is evaluated first, so a constructor
error leaves the slot untouched, while a `start` error happens after the
assignment. Errors propagate unmodified (there is no try/except). -/
def start_kernel (env : StartEnv) (s : Mgr) : Except PyError Unit × Mgr :=
  match env.constructErr with
  | some e => (Except.error e, s)
  | none =>
      let k : Kernel := ⟨s.nextId⟩
      let s1 : Mgr :=
        { kernel := some k
          nextId := s.nextId + 1
          trace := s.trace ++ [Event.construct k.kid, Event.setKernel (some k.kid)] }
      match env.startErr with
      | some e => (Except.error e, s1)
      | none => (Except.ok (), { s1 with trace := s1.trace ++ [Event.kernelStart k.kid] })

/-- `restart_kernel(now=False, newports=False, ...)`:
`self.shutdown_kernel(); await self.start_kernel(...)`. The flags are
accepted but never read. -/
def restart_kernel (env : StartEnv) (now : Bool) (newports : Bool) (s : Mgr) :
    Except PyError Unit × Mgr :=
  start_kernel env (shutdown_kernel s)

/-- `interrupt_kernel`: `raise NotImplementedError("Cannot interrupt
in-process kernel.")`, unconditionally. -/
def interrupt_kernel (s : Mgr) : Except PyError Unit × Mgr :=
  (Except.error (PyError.notImplementedError "Cannot interrupt in-process kernel."), s)

/-- `signal_kernel(signum)`: `raise NotImplementedError("Cannot signal
in-process kernel.")`, unconditionally; `signum` is never read. -/
def signal_kernel (signum : Int) (s : Mgr) : Except PyError Unit × Mgr :=
  (Except.error (PyError.notImplementedError "Cannot signal in-process kernel."), s)

/-- A value stored in a `kwargs` dictionary: either a kernel reference (the
value `client` writes under the key `"kernel"`) or any other value,
abstracted by a code. -/
inductive Val where
  | kernelRef (k : Option Nat)
  | other (n : Nat)
deriving DecidableEq, Repr

/-- Python dict assignment `kw[key] = v`: replace the first binding of
`key`, or append one if absent. -/
def setKwarg (key : String) (v : Val) : List (String × Val) → List (String × Val)
  | [] => [(key, v)]
  | (k, w) :: rest =>
      if k = key then (key, v) :: rest else (k, w) :: setKwarg key v rest

/-- Python dict lookup `kw[key]`: the first binding of `key`, if any. -/
def lookupKwarg (key : String) : List (String × Val) → Option Val
  | [] => none
  | (k, w) :: rest => if k = key then some w else lookupKwarg key rest

/-- A constructed kernel client: the kernel reference it is bound to and
the full keyword arguments it was built from. -/
structure Client where
  boundKernel : Option Nat
  passedKwargs : List (String × Val)
deriving DecidableEq, Repr

/-- Modelled from the spec: the base client factory `super().client(**kw)`
(`jupyter_client.manager.KernelManager.client` together with
`BlockingInProcessKernelClient`, both absent from `src/`). Per the spec it
constructs, without raising, a client bound to the kernel reference found
in the options; all construction inputs are recorded. -/
def base_client (kwargs : List (String × Val)) : Client :=
  { boundKernel :=
      match lookupKwarg "kernel" kwargs with
      | some (Val.kernelRef k) => k
      | _ => none
    passedKwargs := kwargs }

/-- The keyword arguments `client` hands to the base factory after
`kwargs["kernel"] = self.kernel`. -/
def clientKwargs (s : Mgr) (kwargs : List (String × Val)) : List (String × Val) :=
  setKwarg "kernel" (Val.kernelRef (s.kernel.map Kernel.kid)) kwargs

/-- `client(**kwargs)`: `kwargs["kernel"] = self.kernel; return
super().client(**kwargs)`. Reads but never writes the manager state. -/
def client (s : Mgr) (kwargs : List (String × Val)) : Client × Mgr :=
  (base_client (clientKwargs s kwargs), s)

/-- Dict assignment followed by lookup of the same key yields the assigned
value, whatever the dictionary held before. -/
theorem lookupKwarg_setKwarg (key : String) (v : Val) (kw : List (String × Val)) :
    lookupKwarg key (setKwarg key v kw) = some v := by
  induction kw with
  | nil => simp [setKwarg, lookupKwarg]
  | cons p rest ih =>
      obtain ⟨k, w⟩ := p
      by_cases hk : k = key
      · simp [setKwarg, lookupKwarg, hk]
      · simp [setKwarg, lookupKwarg, hk, ih]

/-- Claim C1: for every manager state, `is_alive` returns `true` if and only
if a kernel handle is currently held (the `kernel` slot is non-null), and
`is_alive` is a pure query: it returns the manager state unchanged. -/
theorem C1_is_alive_iff_handle (s : Mgr) :
    ((is_alive s).1 = true ↔ s.kernel ≠ none) ∧ (is_alive s).2 = s := by
  refine ⟨?_, rfl⟩
  cases h : s.kernel <;> simp [is_alive, h]

/-- Claim C2: for a start that completes (neither the handle constructor nor
its awaited `start` raises), `is_alive` is `true` immediately after
`start_kernel` and `false` immediately after the following
`shutdown_kernel`, from any prior state. -/
theorem C2_start_then_shutdown (env : StartEnv) (s : Mgr)
    (hc : env.constructErr = none) (hs : env.startErr = none) :
    (is_alive (start_kernel env s).2).1 = true ∧
    (is_alive (shutdown_kernel (start_kernel env s).2)).1 = false := by
  simp [start_kernel, hc, hs, is_alive, shutdown_kernel, _kill_kernel]

/-- Claim C2, witness: the start→shutdown scenario from the fresh manager
with a succeeding kernel handle. -/
theorem C2_start_then_shutdown_witness :
    (is_alive (start_kernel ⟨none, none⟩ init).2).1 = true ∧
    (is_alive (shutdown_kernel (start_kernel ⟨none, none⟩ init).2)).1 = false :=
  C2_start_then_shutdown ⟨none, none⟩ init rfl rfl

/-- Claim C3: `shutdown_kernel` with no handle held is a no-op: it cannot
raise (it is a total function), leaves the state unchanged, and `is_alive`
stays `false`; and for every state a second `shutdown_kernel` in a row
changes nothing, so shutdown is idempotent and calling it twice does not
fail. -/
theorem C3_shutdown_noop_idempotent (s : Mgr) :
    (s.kernel = none →
      shutdown_kernel s = s ∧ (is_alive (shutdown_kernel s)).1 = false) ∧
    shutdown_kernel (shutdown_kernel s) = shutdown_kernel s := by
  cases h : s.kernel with
  | none =>
      refine ⟨fun _ => ⟨?_, ?_⟩, ?_⟩ <;> simp [shutdown_kernel, h, is_alive]
  | some k =>
      constructor
      · intro hn
        exact Option.noConfusion hn
      · simp [shutdown_kernel, h, _kill_kernel]

/-- Claim C3, witness: shutting down the fresh manager (no handle held)
leaves it unchanged with `is_alive` false. -/
theorem C3_shutdown_noop_idempotent_witness :
    shutdown_kernel init = init ∧ (is_alive (shutdown_kernel init)).1 = false :=
  (C3_shutdown_noop_idempotent init).1 rfl

/-- Claim C4: for every combination of the `now` and `newports` flags and
every state and startup environment, `restart_kernel` is exactly
`shutdown_kernel` followed by `start_kernel` with the same configuration
(same result and same successor state), and the flags have no effect on
behaviour. -/
theorem C4_restart_is_shutdown_then_start (env : StartEnv)
    (now newports n2 p2 : Bool) (s : Mgr) :
    restart_kernel env now newports s = start_kernel env (shutdown_kernel s) ∧
    restart_kernel env now newports s = restart_kernel env n2 p2 s :=
  ⟨rfl, rfl⟩

/-- Claim C5: in every manager state and for every signal number,
`interrupt_kernel` and `signal_kernel` raise `NotImplementedError` (the
unsupported-operation error) with their fixed human-readable messages,
never succeed, and leave the state unchanged. -/
theorem C5_interrupt_signal_always_raise (s : Mgr) (n : Int) :
    interrupt_kernel s =
      (Except.error (PyError.notImplementedError "Cannot interrupt in-process kernel."), s) ∧
    signal_kernel n s =
      (Except.error (PyError.notImplementedError "Cannot signal in-process kernel."), s) ∧
    (∀ u : Unit, (interrupt_kernel s).1 ≠ Except.ok u) ∧
    (∀ u : Unit, (signal_kernel n s).1 ≠ Except.ok u) := by
  refine ⟨rfl, rfl, ?_, ?_⟩ <;> intro u h <;> cases h

/-- Claim C6: calling the client factory while no kernel handle is held (in
particular before any start) is a total operation that raises nothing,
binds the resulting client to the empty kernel reference, and leaves the
manager state unchanged. -/
theorem C6_client_before_start (s : Mgr) (kwargs : List (String × Val))
    (h : s.kernel = none) :
    (client s kwargs).1.boundKernel = none ∧ (client s kwargs).2 = s := by
  refine ⟨?_, rfl⟩
  simp [client, base_client, clientKwargs, h, lookupKwarg_setKwarg]

/-- Claim C6, witness: a client built from the fresh manager with empty
options is bound to no kernel. -/
theorem C6_client_before_start_witness :
    (client init []).1.boundKernel = none ∧ (client init []).2 = init :=
  C6_client_before_start init [] rfl

/-- Claim C7: when a handle is held, `shutdown_kernel` performs, in this
order, the stop of the handle's iopub (output-publishing) thread, the stop
of the handle itself, and only then the clearing of the `kernel` slot; the
final state holds no handle. -/
theorem C7_shutdown_stops_iopub_before_clearing (s : Mgr) (k : Kernel)
    (h : s.kernel = some k) :
    shutdown_kernel s =
      { s with kernel := none
               trace := s.trace ++
                 [Event.iopubStop k.kid, Event.kernelStop k.kid, Event.setKernel none] } := by
  simp [shutdown_kernel, h, _kill_kernel]

/-- Claim C7, witness: shutting down a manager holding handle 0 emits
iopubStop 0, then kernelStop 0, then the clearing of the slot. -/
theorem C7_shutdown_stops_iopub_before_clearing_witness :
    shutdown_kernel { kernel := some ⟨0⟩, nextId := 1, trace := [] } =
      { kernel := none, nextId := 1,
        trace := [Event.iopubStop 0, Event.kernelStop 0, Event.setKernel none] } :=
  C7_shutdown_stops_iopub_before_clearing
    { kernel := some ⟨0⟩, nextId := 1, trace := [] } ⟨0⟩ rfl

/-- Claim C8: any error raised while constructing the kernel handle or while
awaiting its startup propagates unmodified (the very same error value) to
the caller of `start_kernel`, and likewise through `restart_kernel` for
any flag combination. -/
theorem C8_startup_errors_propagate (env : StartEnv) (s : Mgr) (e : PyError)
    (now newports : Bool) :
    (env.constructErr = some e →
      (start_kernel env s).1 = Except.error e ∧
      (restart_kernel env now newports s).1 = Except.error e) ∧
    (env.constructErr = none → env.startErr = some e →
      (start_kernel env s).1 = Except.error e ∧
      (restart_kernel env now newports s).1 = Except.error e) := by
  constructor
  · intro hc
    constructor <;> simp [start_kernel, restart_kernel, hc]
  · intro hc hs
    constructor <;> simp [start_kernel, restart_kernel, hc, hs]

/-- Claim C8, witness: a constructor error (code 7) and a startup error
(code 3) each surface unchanged from `start_kernel` on the fresh manager. -/
theorem C8_startup_errors_propagate_witness :
    (start_kernel ⟨some (PyError.exn 7), none⟩ init).1 = Except.error (PyError.exn 7) ∧
    (start_kernel ⟨none, some (PyError.exn 3)⟩ init).1 = Except.error (PyError.exn 3) :=
  ⟨((C8_startup_errors_propagate ⟨some (PyError.exn 7), none⟩ init
      (PyError.exn 7) false false).1 rfl).1,
   ((C8_startup_errors_propagate ⟨none, some (PyError.exn 3)⟩ init
      (PyError.exn 3) false false).2 rfl rfl).1⟩

/-- Claim C9: if the handle constructor succeeds but the awaited `start`
raises, the error propagates while the `kernel` slot has already been
assigned the new handle and is not rolled back, so `is_alive` returns
`true` after the failed start. -/
theorem C9_start_not_atomic_on_error (env : StartEnv) (s : Mgr) (e : PyError)
    (hc : env.constructErr = none) (hs : env.startErr = some e) :
    (start_kernel env s).1 = Except.error e ∧
    (start_kernel env s).2.kernel = some ⟨s.nextId⟩ ∧
    (is_alive (start_kernel env s).2).1 = true := by
  simp [start_kernel, hc, hs, is_alive]

/-- Claim C9, witness: on the fresh manager, a start whose async phase
raises code 5 leaves handle 0 assigned and `is_alive` true. -/
theorem C9_start_not_atomic_on_error_witness :
    (start_kernel ⟨none, some (PyError.exn 5)⟩ init).1 = Except.error (PyError.exn 5) ∧
    (start_kernel ⟨none, some (PyError.exn 5)⟩ init).2.kernel = some ⟨0⟩ ∧
    (is_alive (start_kernel ⟨none, some (PyError.exn 5)⟩ init).2).1 = true :=
  C9_start_not_atomic_on_error ⟨none, some (PyError.exn 5)⟩ init (PyError.exn 5) rfl rfl

/-- Claim C10: for every manager state and every caller-supplied options
dictionary (including one already containing a `"kernel"` entry), the
client factory overwrites the `"kernel"` option with the manager's current
kernel handle before delegating, so the constructed client is bound to the
manager's handle and never to a caller-chosen one. -/
theorem C10_client_overwrites_kernel_option (s : Mgr) (kwargs : List (String × Val)) :
    lookupKwarg "kernel" (clientKwargs s kwargs) =
      some (Val.kernelRef (s.kernel.map Kernel.kid)) ∧
    (client s kwargs).1.boundKernel = s.kernel.map Kernel.kid := by
  refine ⟨lookupKwarg_setKwarg "kernel" _ kwargs, ?_⟩
  simp [client, base_client, clientKwargs, lookupKwarg_setKwarg]

end InProcess
